import Mathlib

/-
  Verification development for the BitCurrencyBot conversion core
  (src/perfect_bot_telegram.py).

  Shallow embedding conventions:
  * Python floats are modelled as rationals (ℚ); the claims under study are
    about ordering, sign and exact arithmetic identities, not rounding.
  * HTTP providers are modelled as oracles: `Env.binance sym` is the numeric
    `price` field Binance returns for the symbol `sym` (`none` = request
    failure / missing field), `Env.whitebit pair` is the `last_price` field
    of the full-ticker response for `pair` (`none` = pair absent / failure).
  * The Redis cache is an association list; `setex key ttl rate` is recorded
    as a `CacheWrite` and applied by consing the new binding in front.
  * A message string that the Python code later whitespace-splits is
    modelled as its token list.  Tokens printed from floats are `Tok.num`,
    all other tokens produced by the source's format strings are non-numeric
    words (`Tok.str`), so Python's `float(token)` is `some` exactly on
    `Tok.num` (a `ValueError` on every `Tok.str` the source can produce).
  * `try`/`except` blocks around store operations are modelled on their
    success path; exceptions that the source lets escape (the alert job's
    `ValueError`) are modelled explicitly with `Option`.
-/

namespace BitBot

/-- A whitespace-split token of a bot message string. -/
inductive Tok : Type
  | num (q : ℚ)
  | str (s : String)
deriving DecidableEq

/-- Python `float(tok)`: succeeds on numeric tokens, raises (`none`) on the
non-numeric words the source's format strings produce. -/
def pyFloatTok : Tok → Option ℚ
  | .num q => some q
  | .str _ => none

/-- `str.lower()` (ASCII, which covers every registered symbol). -/
def pyLower (s : String) : String := s.map Char.toLower

/-- `str.upper()` (ASCII, which covers every registered symbol). -/
def pyUpper (s : String) : String := s.map Char.toUpper

/-- The CURRENCIES table: user alias ↦ provider code. -/
def CURRENCIES : String → Option String
  | "usd" => some "USDT"
  | "uah" => some "UAH"
  | "eur" => some "EUR"
  | "rub" => some "RUB"
  | "jpy" => some "JPY"
  | "cny" => some "CNY"
  | "gbp" => some "GBP"
  | "kzt" => some "KZT"
  | "try" => some "TRY"
  | "btc" => some "BTC"
  | "eth" => some "ETH"
  | "xrp" => some "XRP"
  | "doge" => some "DOGE"
  | "ada" => some "ADA"
  | "sol" => some "SOL"
  | "ltc" => some "LTC"
  | "usdt" => some "USDT"
  | "bnb" => some "BNB"
  | "trx" => some "TRX"
  | "dot" => some "DOT"
  | "matic" => some "MATIC"
  | _ => none

def FREE_REQUEST_LIMIT : ℤ := 5

def CACHE_TIMEOUT : ℕ := 300

def ADMIN_IDS : List String := ["1058875848", "6403305626"]

def UAH_TO_USDT_FALLBACK : ℚ := 239 / 10000

def USDT_TO_UAH_FALLBACK : ℚ := 4184 / 100

/-- The two upstream ticker endpoints, as price oracles. -/
structure Env where
  binance : String → Option ℚ
  whitebit : String → Option ℚ

/-- Python truthiness of an `Optional[float]`: `None` and `0.0` are falsy. -/
def truthy : Option ℚ → Bool
  | none => false
  | some q => q != 0

/-- Python `a or b` on `Optional[float]` operands. -/
def pyOr (a b : Option ℚ) : Option ℚ := if truthy a then a else b

/-- `fetch_rate(api_url, pair, reverse)` for the Binance endpoint: take the
`price` field, reject a non-positive value (the code raises and catches a
`ValueError`), invert when `reverse` is set. -/
def fetch_rate (env : Env) (pair : String) (reverse : Bool) : Option ℚ :=
  match env.binance pair with
  | none => none
  | some price =>
      if price ≤ 0 then none
      else if reverse then some (1 / price) else some price

/-- `fetch_whitebit_rate(pair, reverse)`: same validation against the
WhiteBIT full-ticker response. -/
def fetch_whitebit_rate (env : Env) (pair : String) (reverse : Bool) : Option ℚ :=
  match env.whitebit pair with
  | none => none
  | some price =>
      if price ≤ 0 then none
      else if reverse then some (1 / price) else some price

/-- One `redis_client.setex(cache_key, CACHE_TIMEOUT, rate)` call. -/
structure CacheWrite where
  key : String
  ttl : ℕ
  rate : ℚ
deriving DecidableEq

/-- The quote cache as an association list (newest binding first). -/
abbrev Cache := List (String × ℚ)

def cacheGet (c : Cache) (k : String) : Option ℚ :=
  (c.find? (fun p => p.1 == k)).map Prod.snd

def applyWrite (c : Cache) : Option CacheWrite → Cache
  | none => c
  | some w => (w.key, w.rate) :: c

/-- The value `get_exchange_rate` produces: the converted amount (`none` on
failure), the token list of the `rate_info` string, and the cache write it
performs (if any). -/
structure RateResult where
  result : Option ℚ
  info : List Tok
  write : Option CacheWrite
deriving DecidableEq

/-- `get_exchange_rate(from_currency, to_currency, amount)`, the rate
resolution engine.  The chain is exactly the source's sequence of early
returns: cache hit, registry check, identity, Binance direct, Binance
reverse, Binance via USDT, WhiteBIT direct, WhiteBIT reverse, WhiteBIT via
USDT, Binance via BTC, static UAH/USDT fallbacks, failure. -/
def get_exchange_rate (env : Env) (cache : Cache)
    (from_currency to_currency : String) (amount : ℚ) : RateResult :=
  let from_key := pyLower from_currency
  let to_key := pyLower to_currency
  let cache_key := "rate:" ++ from_key ++ "_" ++ to_key
  match cacheGet cache cache_key with
  | some rate =>
      ⟨some (amount * rate),
       [.num 1, .str (pyUpper from_key), .str "=", .num rate,
        .str (pyUpper to_key), .str "(cached)"], none⟩
  | none =>
    match CURRENCIES from_key, CURRENCIES to_key with
    | some from_code, some to_code =>
      if from_key = to_key then
        ⟨some (amount * 1),
         [.num 1, .str (pyUpper from_key), .str "=", .num 1,
          .str (pyUpper to_key)],
         some ⟨cache_key, CACHE_TIMEOUT, 1⟩⟩
      else
        let b_direct := fetch_rate env (from_code ++ to_code) false
        if truthy b_direct then
          let rate := b_direct.getD 0
          ⟨some (amount * rate),
           [.num 1, .str from_code, .str "=", .num rate, .str to_code,
            .str "(Binance", .str "direct)"],
           some ⟨cache_key, CACHE_TIMEOUT, rate⟩⟩
        else
        let b_rev := fetch_rate env (to_code ++ from_code) true
        if truthy b_rev then
          let rate := b_rev.getD 0
          ⟨some (amount * rate),
           [.num 1, .str from_code, .str "=", .num (1 / rate), .str to_code,
            .str "(Binance", .str "reverse)"],
           some ⟨cache_key, CACHE_TIMEOUT, rate⟩⟩
        else
        let rate_from_usdt := pyOr (fetch_rate env (from_code ++ "USDT") false)
                                   (fetch_rate env ("USDT" ++ from_code) true)
        let rate_to_usdt := pyOr (fetch_rate env ("USDT" ++ to_code) false)
                                 (fetch_rate env (to_code ++ "USDT") true)
        let b_bridge : Option ℚ :=
          if (from_key ≠ "usdt" ∨ to_key ≠ "usdt") ∧
              truthy rate_from_usdt ∧ truthy rate_to_usdt then
            let rate := if to_key ≠ "usdt"
              then rate_from_usdt.getD 0 / rate_to_usdt.getD 0
              else rate_from_usdt.getD 0
            if 0 < rate then some rate else none
          else none
        match b_bridge with
        | some rate =>
            ⟨some (amount * rate),
             [.num 1, .str from_code, .str "=", .num rate, .str to_code,
              .str "(Binance", .str "via", .str "USDT)"],
             some ⟨cache_key, CACHE_TIMEOUT, rate⟩⟩
        | none =>
        let w_direct := fetch_whitebit_rate env (from_code ++ "_" ++ to_code) false
        if truthy w_direct then
          let rate := w_direct.getD 0
          ⟨some (amount * rate),
           [.num 1, .str from_code, .str "=", .num rate, .str to_code,
            .str "(WhiteBIT", .str "direct)"],
           some ⟨cache_key, CACHE_TIMEOUT, rate⟩⟩
        else
        let w_rev := fetch_whitebit_rate env (to_code ++ "_" ++ from_code) true
        if truthy w_rev then
          let rate := w_rev.getD 0
          ⟨some (amount * rate),
           [.num 1, .str from_code, .str "=", .num (1 / rate), .str to_code,
            .str "(WhiteBIT", .str "reverse)"],
           some ⟨cache_key, CACHE_TIMEOUT, rate⟩⟩
        else
        let w_from_usdt := pyOr (fetch_whitebit_rate env (from_code ++ "_USDT") false)
                                (fetch_whitebit_rate env ("USDT_" ++ from_code) true)
        let w_to_usdt := pyOr (fetch_whitebit_rate env ("USDT_" ++ to_code) false)
                              (fetch_whitebit_rate env (to_code ++ "_USDT") true)
        let w_bridge : Option ℚ :=
          if (from_key ≠ "usdt" ∨ to_key ≠ "usdt") ∧
              truthy w_from_usdt ∧ truthy w_to_usdt then
            let rate := if to_key ≠ "usdt"
              then w_from_usdt.getD 0 / w_to_usdt.getD 0
              else w_from_usdt.getD 0
            if 0 < rate then some rate else none
          else none
        match w_bridge with
        | some rate =>
            ⟨some (amount * rate),
             [.num 1, .str from_code, .str "=", .num rate, .str to_code,
              .str "(WhiteBIT", .str "via", .str "USDT)"],
             some ⟨cache_key, CACHE_TIMEOUT, rate⟩⟩
        | none =>
        let rate_from_btc := pyOr (fetch_rate env (from_code ++ "BTC") false)
                                  (fetch_rate env ("BTC" ++ from_code) true)
        let rate_to_btc := pyOr (fetch_rate env ("BTC" ++ to_code) false)
                                (fetch_rate env (to_code ++ "BTC") true)
        let btc_bridge : Option ℚ :=
          if (from_key ≠ "btc" ∨ to_key ≠ "btc") ∧
              truthy rate_from_btc ∧ truthy rate_to_btc then
            let rate := if to_key ≠ "btc"
              then rate_from_btc.getD 0 / rate_to_btc.getD 0
              else rate_from_btc.getD 0
            if 0 < rate then some rate else none
          else none
        match btc_bridge with
        | some rate =>
            ⟨some (amount * rate),
             [.num 1, .str from_code, .str "=", .num rate, .str to_code,
              .str "(Binance", .str "via", .str "BTC)"],
             some ⟨cache_key, CACHE_TIMEOUT, rate⟩⟩
        | none =>
        if from_key = "uah" ∧ to_key = "usdt" then
          ⟨some (amount * UAH_TO_USDT_FALLBACK),
           [.num 1, .str (pyUpper from_key), .str "=", .num UAH_TO_USDT_FALLBACK,
            .str (pyUpper to_key), .str "(fallback)"],
           some ⟨cache_key, CACHE_TIMEOUT, UAH_TO_USDT_FALLBACK⟩⟩
        else if from_key = "usdt" ∧ to_key = "uah" then
          ⟨some (amount * USDT_TO_UAH_FALLBACK),
           [.num 1, .str (pyUpper from_key), .str "=", .num USDT_TO_UAH_FALLBACK,
            .str (pyUpper to_key), .str "(fallback)"],
           some ⟨cache_key, CACHE_TIMEOUT, USDT_TO_UAH_FALLBACK⟩⟩
        else
          ⟨none,
           [.str "Курс", .str "недоступен:", .str "данные", .str "отсутствуют"],
           none⟩
    | _, _ =>
        ⟨none, [.str "Неподдерживаемая", .str "валюта"], none⟩

/-- One user's entry in the `stats` blob: `{"requests": n, "last_reset": d}`. -/
structure UserData where
  requests : ℤ
  last_reset : String
deriving DecidableEq

/-- The `stats` JSON blob stored under the `stats` key.  Python dicts keep
unique keys in insertion order; they are modelled as association lists whose
first binding for a key is its value. -/
structure Stats where
  users : List (String × UserData)
  subscriptions : List (String × Bool)
  total_requests : ℤ
  request_types : List (String × ℤ)
deriving DecidableEq

def alGet {α : Type} (l : List (String × α)) (k : String) : Option α :=
  (l.find? (fun p => p.1 == k)).map Prod.snd

/-- Dict update: replace the (first) binding of `k`, or append a fresh one
(`setdefault` followed by in-place mutation behaves the same way). -/
def alSet {α : Type} : List (String × α) → String → α → List (String × α)
  | [], k, v => [(k, v)]
  | p :: ps, k, v => if p.1 = k then (k, v) :: ps else p :: alSet ps k v

/-- `check_limit(user_id)`; the clock read `time.strftime` is passed in as
`today`.  Note: unlike `save_stats`, this function performs no date
rollover on the stored record. -/
def check_limit (stats : Stats) (today : String) (user_id : String) : Bool × String :=
  if user_id ∈ ADMIN_IDS then (true, "∞")
  else if (alGet stats.subscriptions user_id).getD false then (true, "∞")
  else
    let user_data := (alGet stats.users user_id).getD ⟨0, today⟩
    let remaining := FREE_REQUEST_LIMIT - user_data.requests
    (decide (0 < remaining), toString remaining)

/-- `save_stats(user_id, request_type)` on its success path: lazily create
the record, reset it when the stored date is stale, then increment. -/
def save_stats (stats : Stats) (today : String) (user_id : String)
    (request_type : String) : Stats :=
  let d0 := (alGet stats.users user_id).getD ⟨0, today⟩
  let d1 : UserData := if d0.last_reset ≠ today then ⟨0, today⟩ else d0
  let d2 : UserData := ⟨d1.requests + 1, d1.last_reset⟩
  ⟨alSet stats.users user_id d2,
   stats.subscriptions,
   stats.total_requests + 1,
   alSet stats.request_types request_type
     ((alGet stats.request_types request_type).getD 0 + 1)⟩

/-- `s.replace('.', '', 1)`: drop the first dot, keep everything else. -/
def pyRemoveDotOnce : List Char → List Char
  | [] => []
  | c :: cs => if c = '.' then cs else c :: pyRemoveDotOnce cs

/-- `s.isdigit()` (ASCII digits, which covers the accepted rate formats). -/
def pyIsdigitList (s : List Char) : Bool := !s.isEmpty && s.all Char.isDigit

/-- The `/alert` handler's rate-format guard:
`args[2].replace('.', '', 1).isdigit()`. -/
def alertArgOk (s : String) : Bool := pyIsdigitList (pyRemoveDotOnce s.data)

def digitsToNat (l : List Char) : ℕ := l.foldl (fun a c => 10 * a + (c.toNat - 48)) 0

/-- Split a character list at its first dot, if any. -/
def splitDot : List Char → List Char × Option (List Char)
  | [] => ([], none)
  | c :: cs =>
      if c = '.' then ([], some cs)
      else
        let r := splitDot cs
        (c :: r.1, r.2)

/-- Python `float(s)` on strings that pass `alertArgOk` (digits with at most
one dot); total by convention elsewhere. -/
def pyFloat (s : String) : ℚ :=
  match splitDot s.data with
  | (i, none) => (digitsToNat i : ℚ)
  | (i, some f) => (digitsToNat i : ℚ) + (digitsToNat f : ℚ) / (10 ^ f.length)

/-- One alert record as stored in the `alerts:{user_id}` list:
`{"from": .., "to": .., "target": ..}`.  There is no `fired` field. -/
structure AlertRec where
  fromCur : String
  toCur : String
  target : ℚ
deriving DecidableEq

/-- The observable outcome of the `/alert` command handler. -/
inductive AlertOutcome : Type
  | usageMenu
  | unsupportedCurrency
  | ack (fromCur toCur : String) (target : ℚ)
deriving DecidableEq

/-- The `/alert` command handler (`alert`): format guard, registry check,
then append-and-acknowledge.  Returns the reply kind and the stored list. -/
def alert (args : List String) (alerts : List AlertRec) :
    AlertOutcome × List AlertRec :=
  if args.length ≠ 3 ∨ ¬ alertArgOk (args.getD 2 "") then
    (.usageMenu, alerts)
  else
    let from_currency := pyLower (args.getD 0 "")
    let to_currency := pyLower (args.getD 1 "")
    let target_rate := pyFloat (args.getD 2 "")
    if (CURRENCIES from_currency).isNone ∨ (CURRENCIES to_currency).isNone then
      (.unsupportedCurrency, alerts)
    else
      (.ack from_currency to_currency target_rate,
       alerts ++ [⟨from_currency, to_currency, target_rate⟩])

/-- A notification handed to the external sink (`bot.send_message`); the
sink's own delivery failures are caught in the source and ignored. -/
structure Notif where
  fromCode : String
  toCode : String
  rate : ℚ
  target : ℚ
deriving DecidableEq

/-- The inner loop of `check_alerts_job` over one user's alert list.
Returns the cache after the calls made so far, the notifications sent so
far, and `some updated_alerts` on normal completion or `none` when an
exception escapes (the `float(rate_info.split()[2])` parse, an out-of-range
index, or a registry `KeyError`), in which case the per-user `setex` of
`updated_alerts` is never reached. -/
def processUserAlerts (env : Env) : Cache → List AlertRec →
    Cache × List Notif × Option (List AlertRec)
  | cache, [] => (cache, [], some [])
  | cache, a :: rest =>
    let g := get_exchange_rate env cache a.fromCur a.toCur 1
    let cache1 := applyWrite cache g.write
    if truthy g.result then
      match (g.info.get? 2).bind pyFloatTok with
      | none => (cache1, [], none)
      | some v =>
        if v ≤ a.target then
          match CURRENCIES a.fromCur, CURRENCIES a.toCur with
          | some from_code, some to_code =>
              let r := processUserAlerts env cache1 rest
              (r.1, ⟨from_code, to_code, v, a.target⟩ :: r.2.1, r.2.2)
          | _, _ => (cache1, [], none)
        else
          let r := processUserAlerts env cache1 rest
          (r.1, r.2.1, (r.2.2).map (fun ua => a :: ua))
    else
      let r := processUserAlerts env cache1 rest
      (r.1, r.2.1, (r.2.2).map (fun ua => a :: ua))

/-- The store state the alert evaluator touches. -/
structure BotState where
  stats : Stats
  alerts : List (String × List AlertRec)
  cache : Cache
deriving DecidableEq

/-- What one evaluator tick did: the resulting store state, the
notifications handed to the sink (tagged by user), and the users whose
alert list was re-persisted by `setex`. -/
structure TickResult where
  state : BotState
  notifs : List (String × Notif)
  saves : List String
deriving DecidableEq

/-- The per-user loop of `check_alerts_job`.  An exception from one user's
evaluation propagates to the job's single outer `except`, ending the whole
tick: the crashed user's list is not saved and later users are not
visited.  Writes (cache `setex`, earlier users' list saves, notifications)
made before the exception stand. -/
def processUsers (env : Env) : List String → BotState → TickResult
  | [], st => ⟨st, [], []⟩
  | u :: rest, st =>
    let al := (alGet st.alerts u).getD []
    if al.isEmpty then processUsers env rest st
    else
      let r := processUserAlerts env st.cache al
      match r.2.2 with
      | none =>
          ⟨⟨st.stats, st.alerts, r.1⟩, (r.2.1).map (fun n => (u, n)), []⟩
      | some ua =>
          let st1 : BotState := ⟨st.stats, alSet st.alerts u ua, r.1⟩
          let t := processUsers env rest st1
          ⟨t.state, (r.2.1).map (fun n => (u, n)) ++ t.notifs, u :: t.saves⟩

/-- `check_alerts_job`: iterate the users recorded in `stats["users"]`. -/
def check_alerts_job (env : Env) (st : BotState) : TickResult :=
  processUsers env (st.stats.users.map Prod.fst) st

/-! ### Helper lemmas -/

lemma fetch_rate_pos (env : Env) (p : String) (r : Bool) (q : ℚ)
    (h : fetch_rate env p r = some q) : 0 < q := by
  unfold fetch_rate at h
  split at h
  · cases h
  next price hb =>
    split at h
    · cases h
    next hle =>
      split at h
      next hr =>
        injection h with h2
        rw [← h2]
        have hp : 0 < price := lt_of_not_le hle
        positivity
      next hr =>
        injection h with h2
        rw [← h2]
        exact lt_of_not_le hle

lemma fetch_whitebit_rate_pos (env : Env) (p : String) (r : Bool) (q : ℚ)
    (h : fetch_whitebit_rate env p r = some q) : 0 < q := by
  unfold fetch_whitebit_rate at h
  split at h
  · cases h
  next price hb =>
    split at h
    · cases h
    next hle =>
      split at h
      next hr =>
        injection h with h2
        rw [← h2]
        have hp : 0 < price := lt_of_not_le hle
        positivity
      next hr =>
        injection h with h2
        rw [← h2]
        exact lt_of_not_le hle

lemma truthy_fetch_rate_getD (env : Env) (p : String) (r : Bool)
    (h : truthy (fetch_rate env p r) = true) : 0 < (fetch_rate env p r).getD 0 := by
  cases hf : fetch_rate env p r with
  | none => rw [hf] at h; simp [truthy] at h
  | some q => simpa using fetch_rate_pos env p r q hf

lemma truthy_fetch_whitebit_getD (env : Env) (p : String) (r : Bool)
    (h : truthy (fetch_whitebit_rate env p r) = true) :
    0 < (fetch_whitebit_rate env p r).getD 0 := by
  cases hf : fetch_whitebit_rate env p r with
  | none => rw [hf] at h; simp [truthy] at h
  | some q => simpa using fetch_whitebit_rate_pos env p r q hf

lemma opt_guard_pos {c : Prop} [Decidable c] {x r : ℚ}
    (h : (if c then (if 0 < x then some x else none) else none) = some r) : 0 < r := by
  split at h
  · split at h
    · cases h; assumption
    · cases h
  · cases h

set_option maxHeartbeats 1600000 in
lemma gxr_write_pos (env : Env) (cache : Cache) (f t : String) (a : ℚ) (w : CacheWrite)
    (hw : (get_exchange_rate env cache f t a).write = some w) : 0 < w.rate := by
  simp only [get_exchange_rate] at hw
  repeat' split at hw
  all_goals simp_all
  all_goals subst hw
  any_goals exact truthy_fetch_rate_getD _ _ _ (by assumption)
  any_goals exact truthy_fetch_whitebit_getD _ _ _ (by assumption)
  any_goals norm_num [UAH_TO_USDT_FALLBACK, USDT_TO_UAH_FALLBACK]
  all_goals (rename_i heqb; exact heqb.2.2 ▸ heqb.2.1)

set_option maxHeartbeats 1600000 in
lemma gxr_result_none_or_tok2 (env : Env) (cache : Cache) (f t : String) (a : ℚ) :
    (get_exchange_rate env cache f t a).result = none ∨
    (get_exchange_rate env cache f t a).info.get? 2 = some (.str "=") := by
  simp only [get_exchange_rate]
  repeat' split
  all_goals simp

lemma gxr_truthy_tok2_bind (env : Env) (cache : Cache) (f t : String) (a : ℚ)
    (h : truthy (get_exchange_rate env cache f t a).result = true) :
    ((get_exchange_rate env cache f t a).info.get? 2).bind pyFloatTok = none := by
  rcases gxr_result_none_or_tok2 env cache f t a with h0 | h0
  · rw [h0] at h; simp [truthy] at h
  · rw [h0]; rfl

lemma pua_inert (env : Env) : ∀ (al : List AlertRec) (cache : Cache),
    (processUserAlerts env cache al).2.1 = [] ∧
    ((processUserAlerts env cache al).2.2 = none ∨
      (processUserAlerts env cache al).2.2 = some al) := by
  intro al
  induction al with
  | nil => intro cache; exact ⟨rfl, Or.inr rfl⟩
  | cons a rest ih =>
    intro cache
    simp only [processUserAlerts]
    cases ht : truthy (get_exchange_rate env cache a.fromCur a.toCur 1).result with
    | true =>
      rw [gxr_truthy_tok2_bind env cache a.fromCur a.toCur 1 ht]
      simp
    | false =>
      simp only [Bool.false_eq_true, if_false]
      obtain ⟨h1, h2⟩ := ih (applyWrite cache (get_exchange_rate env cache a.fromCur a.toCur 1).write)
      refine ⟨h1, ?_⟩
      rcases h2 with h2 | h2
      · rw [h2]; exact Or.inl rfl
      · rw [h2]; exact Or.inr rfl

lemma alGet_of_getD_ne (l : List (String × List AlertRec)) (u : String)
    (h : ((alGet l u).getD []).isEmpty = false) :
    alGet l u = some ((alGet l u).getD []) := by
  cases hg : alGet l u with
  | none => rw [hg] at h; simp at h
  | some x => simp

lemma alSet_get_self {α : Type} : ∀ (l : List (String × α)) (k : String) (v : α),
    alGet l k = some v → alSet l k v = l := by
  intro l
  induction l with
  | nil => intro k v h; simp [alGet] at h
  | cons p ps ih =>
    intro k v h
    by_cases hpk : p.1 = k
    · simp only [alGet, List.find?] at h
      rw [show (p.1 == k) = true from beq_iff_eq.mpr hpk] at h
      simp at h
      simp only [alSet, if_pos hpk]
      rw [← hpk, ← h]
    · simp only [alGet, List.find?] at h
      rw [show (p.1 == k) = false from beq_eq_false_iff_ne.mpr hpk] at h
      simp only [alSet, if_neg hpk]
      rw [ih k v h]

lemma pus_inert (env : Env) : ∀ (users : List String) (st : BotState),
    (processUsers env users st).notifs = [] ∧
    (processUsers env users st).state.alerts = st.alerts ∧
    (processUsers env users st).state.stats = st.stats := by
  intro users
  induction users with
  | nil => intro st; exact ⟨rfl, rfl, rfl⟩
  | cons u rest ih =>
    intro st
    simp only [processUsers]
    cases hemp : ((alGet st.alerts u).getD []).isEmpty with
    | true => exact ih st
    | false =>
      obtain ⟨h1, h2⟩ := pua_inert env ((alGet st.alerts u).getD []) st.cache
      rcases h2 with h2 | h2
      · rw [h2, h1]
        exact ⟨rfl, rfl, rfl⟩
      · rw [h2, h1]
        have hset : alSet st.alerts u ((alGet st.alerts u).getD []) = st.alerts :=
          alSet_get_self st.alerts u _ (alGet_of_getD_ne st.alerts u hemp)
        simp only [Bool.false_eq_true, if_false]
        obtain ⟨g1, g2, g3⟩ := ih ⟨st.stats,
          alSet st.alerts u ((alGet st.alerts u).getD []),
          (processUserAlerts env st.cache ((alGet st.alerts u).getD [])).1⟩
        refine ⟨?_, ?_, ?_⟩
        · simpa using g1
        · simpa [hset] using g2
        · exact g3

lemma pyFloat_nonneg (s : String) : 0 ≤ pyFloat s := by
  unfold pyFloat
  split
  · positivity
  · positivity

/-! ### Claim C1 — fallback ordering of the rate resolution chain -/

/-- Binance has no direct or reversed EUR/UAH pair, but both via-USDT legs;
WhiteBIT quotes EUR_UAH directly at 45. -/
def envC1 : Env :=
  ⟨fun p => if p = "EURUSDT" then some (11 / 10)
            else if p = "USDTUAH" then some 41 else none,
   fun p => if p = "EUR_UAH" then some 45 else none⟩

/-- C1 counterexample: with Binance direct and reversed both failing and
WhiteBIT direct available at rate 45, `get_exchange_rate` returns the
Binance via-USDT bridged rate 11/410 (tagged "Binance via USDT"), not the
provider-B direct rate — the bridge is tried before the secondary
provider, contradicting the claimed §4.2 ordering. -/
theorem C1_counterexample :
    fetch_rate envC1 "EURUAH" false = none ∧
    fetch_rate envC1 "UAHEUR" true = none ∧
    fetch_whitebit_rate envC1 "EUR_UAH" false = some 45 ∧
    (get_exchange_rate envC1 [] "eur" "uah" 1).result = some (11 / 410) ∧
    (get_exchange_rate envC1 [] "eur" "uah" 1).info =
      [.num 1, .str "EUR", .str "=", .num (11 / 410), .str "UAH",
       .str "(Binance", .str "via", .str "USDT)"] ∧
    (get_exchange_rate envC1 [] "eur" "uah" 1).result ≠ some (1 * 45) := by
  decide!

/-! ### Claim C2 — daily quota rollover -/

/-- Stored quota record: 5 requests consumed, last reset yesterday. -/
def statsC2 : Stats := ⟨[("77", ⟨5, "2026-10-11"⟩)], [], 0, []⟩

/-- C2: a non-admin, non-subscribed user whose record reads
`requests = 5 (= limit), last_reset = yesterday` is denied by today's
`check_limit` with remaining "0" — the date rollover exists only in
`save_stats` (second conjunct: it would reset then count to 1), which runs
only after the gate, so the claimed allow-one-request behaviour never
happens. -/
theorem C2_rollover_denied :
    check_limit statsC2 "2026-10-12" "77" = (false, "0") ∧
    (alGet (save_stats statsC2 "2026-10-12" "77" "usd_to_uah").users "77").map
      UserData.requests = some 1 := by
  decide!

/-! ### Claim C3 — alert at-most-once over the ticks [120, 95, 90] -/

/-- Binance quotes USDT/UAH at `q`; nothing else resolves. -/
def envC3 (q : ℚ) : Env :=
  ⟨fun p => if p = "USDTUAH" then some q else none, fun _ => none⟩

/-- One user with one standing alert: usd→uah, target 100. -/
def stC3 : BotState :=
  ⟨⟨[("u1", ⟨0, "2026-10-12"⟩)], [], 0, []⟩, [("u1", [⟨"usd", "uah", 100⟩])], []⟩

/-- C3: across ticks observing rates 120, 95 and 90 the evaluator sends no
notification at all — not one on the 95 tick as claimed.  The rate resolves
(result `some 95`, and 95 ≤ 100 meets the condition) but the threshold test
parses token index 2 of the rate-info string, which is always "=", so
`float()` raises and the tick dies before the sink is called; the alert
list is left unchanged, so each later tick starts from the same state. -/
theorem C3_no_tick_ever_notifies :
    (check_alerts_job (envC3 120) stC3).notifs = [] ∧
    (check_alerts_job (envC3 120) stC3).state.alerts = stC3.alerts ∧
    (check_alerts_job (envC3 95) stC3).notifs = [] ∧
    (check_alerts_job (envC3 95) stC3).state.alerts = stC3.alerts ∧
    (check_alerts_job (envC3 90) stC3).notifs = [] ∧
    (get_exchange_rate (envC3 95) [] "usd" "uah" 1).result = some 95 ∧
    ((95 : ℚ) ≤ 100) ∧
    ((get_exchange_rate (envC3 95) [] "usd" "uah" 1).info.get? 2).bind
      pyFloatTok = none := by
  decide!

/-! ### Claim C4 — isolation of users inside one evaluator tick -/

/-- u1's pair resolves (and so crashes the threshold parse); u2's pair
would also resolve, at rate 50. -/
def envC4 : Env :=
  ⟨fun p => if p = "USDTUAH" then some 95
            else if p = "EURUAH" then some 50 else none,
   fun _ => none⟩

/-- Two users, one alert each. -/
def stC4 : BotState :=
  ⟨⟨[("u1", ⟨0, "2026-10-12"⟩), ("u2", ⟨0, "2026-10-12"⟩)], [], 0, []⟩,
   [("u1", [⟨"usd", "uah", 100⟩]), ("u2", [⟨"eur", "uah", 100⟩])], []⟩

/-- C4 counterexample: the exception raised while evaluating u1's alert
kills the whole tick — no user's alert list is persisted (`saves = []`),
and u2 is never even evaluated: the cache holds u1's pair but no entry for
u2's pair, although u2 has a stored alert. -/
theorem C4_counterexample :
    alGet stC4.alerts "u2" = some [⟨"eur", "uah", 100⟩] ∧
    (check_alerts_job envC4 stC4).saves = [] ∧
    (check_alerts_job envC4 stC4).notifs = [] ∧
    cacheGet (check_alerts_job envC4 stC4).state.cache "rate:usd_uah" = some 95 ∧
    cacheGet (check_alerts_job envC4 stC4).state.cache "rate:eur_uah" = none := by
  decide!

/-- C4 amended: the tick's single try/except means an exception while
evaluating the first user's alerts ends the whole job — no alert list is
persisted for any user, later users are not visited, and only the cache
writes already made survive. -/
theorem C4_exception_aborts_tick (env : Env) (st : BotState) (u : String)
    (rest : List String)
    (husers : st.stats.users.map Prod.fst = u :: rest)
    (hne : ((alGet st.alerts u).getD []).isEmpty = false)
    (hcrash : (processUserAlerts env st.cache ((alGet st.alerts u).getD [])).2.2 = none) :
    check_alerts_job env st =
      ⟨⟨st.stats, st.alerts,
        (processUserAlerts env st.cache ((alGet st.alerts u).getD [])).1⟩,
       ((processUserAlerts env st.cache ((alGet st.alerts u).getD [])).2.1).map
         (fun n => (u, n)), []⟩ := by
  unfold check_alerts_job
  rw [husers]
  simp only [processUsers]
  rw [hne]
  simp only [Bool.false_eq_true, if_false]
  rw [hcrash]

/-- C4 amended, witness: the situation of `stC4`/`envC4` satisfies the
hypotheses, and the theorem computes the aborted tick. -/
theorem C4_exception_aborts_tick_witness :
    stC4.stats.users.map Prod.fst = "u1" :: ["u2"] ∧
    ((alGet stC4.alerts "u1").getD []).isEmpty = false ∧
    (processUserAlerts envC4 stC4.cache ((alGet stC4.alerts "u1").getD [])).2.2 = none ∧
    (check_alerts_job envC4 stC4).saves = [] :=
  ⟨by decide!, by decide!, by decide!, by
    rw [C4_exception_aborts_tick envC4 stC4 "u1" ["u2"] (by decide!) (by decide!)
      (by decide!)]⟩

/-! ### Claim C5 — what firing does to the stored alert record -/

/-- Binance quotes EUR/UAH at 50, below the target 100. -/
def envC5 : Env := ⟨fun p => if p = "EURUAH" then some 50 else none, fun _ => none⟩

/-- One user with one standing alert whose condition is met. -/
def stC5 : BotState :=
  ⟨⟨[("w", ⟨0, "2026-10-12"⟩)], [], 0, []⟩, [("w", [⟨"eur", "uah", 100⟩])], []⟩

/-- C5 counterexample: the alert's condition is met (rate 50 ≤ target 100),
yet the notification is never attempted (`notifs = []`, the threshold parse
raises first) and the stored record is exactly the original — records carry
no `fired` field at all (`AlertRec` is from/to/target only), so nothing is
ever "marked fired"; in the code's fire path a fired alert would be dropped
from `updated_alerts`, not retained. -/
theorem C5_counterexample :
    (get_exchange_rate envC5 [] "eur" "uah" 1).result = some 50 ∧
    ((50 : ℚ) ≤ 100) ∧
    (check_alerts_job envC5 stC5).notifs = [] ∧
    alGet (check_alerts_job envC5 stC5).state.alerts "w" =
      some [⟨"eur", "uah", 100⟩] := by
  decide!

/-- C5 amended: for every provider environment and store state, one
evaluator tick attempts no notification and leaves every user's stored
alert list exactly as it was — no record is marked (there is no `fired`
field) and none is removed. -/
theorem C5_alert_records_unchanged (env : Env) (st : BotState) :
    (check_alerts_job env st).notifs = [] ∧
    (check_alerts_job env st).state.alerts = st.alerts := by
  obtain ⟨h1, h2, h3⟩ := pus_inert env (st.stats.users.map Prod.fst) st
  exact ⟨h1, h2⟩

/-! ### Claim C6 — admin/subscriber quota bypass -/

/-- C6: for an admin id or a subscribed id, `check_limit` returns
`(true, "∞")` whatever the stored counters say; for admin ids the result
does not depend on the stats record at all (the admin list is consulted
before any record lookup). -/
theorem C6_admin_subscriber_bypass (stats : Stats) (today user_id : String)
    (h : user_id ∈ ADMIN_IDS ∨ (alGet stats.subscriptions user_id).getD false = true) :
    check_limit stats today user_id = (true, "∞") ∧
    (∀ s1 s2 : Stats, ∀ d1 d2 : String, user_id ∈ ADMIN_IDS →
      check_limit s1 d1 user_id = check_limit s2 d2 user_id) := by
  constructor
  · rcases h with h | h <;> simp [check_limit, h]
  · intro s1 s2 d1 d2 ha
    simp [check_limit, ha]

/-- Stats with an admin and a subscriber both far above the free limit. -/
def statsC6 : Stats :=
  ⟨[("1058875848", ⟨999, "2026-10-12"⟩), ("sub1", ⟨999, "2026-10-12"⟩)],
   [("sub1", true)], 0, []⟩

/-- C6 witness: the bypass theorem applied to the first admin id and to a
subscribed id, both with 999 stored requests. -/
theorem C6_admin_subscriber_bypass_witness :
    ("1058875848" ∈ ADMIN_IDS ∨
      (alGet statsC6.subscriptions "1058875848").getD false = true) ∧
    check_limit statsC6 "2026-10-12" "1058875848" = (true, "∞") ∧
    ("sub1" ∈ ADMIN_IDS ∨ (alGet statsC6.subscriptions "sub1").getD false = true) ∧
    check_limit statsC6 "2026-10-12" "sub1" = (true, "∞") :=
  ⟨Or.inl (by decide),
   (C6_admin_subscriber_bypass statsC6 "2026-10-12" "1058875848"
     (Or.inl (by decide))).1,
   Or.inr (by decide),
   (C6_admin_subscriber_bypass statsC6 "2026-10-12" "sub1"
     (Or.inr (by decide))).1⟩

/-! ### Claim C1 (amended) — the chain with the bridge in its actual place -/

/-- C1 amended: the actual order is Binance direct, Binance reversed,
Binance via-USDT bridge, then WhiteBIT direct.  If Binance's direct,
reversed and via-USDT lookups all fail and WhiteBIT quotes the pair
directly, the WhiteBIT-direct rate is returned and cached. -/
theorem C1_fallback_order (env : Env) (cache : Cache) (fk tk fc tc : String)
    (amount r : ℚ)
    (hlf : pyLower fk = fk) (hlt : pyLower tk = tk)
    (hf : CURRENCIES fk = some fc) (ht : CURRENCIES tk = some tc)
    (hne : fk ≠ tk)
    (hmiss : cacheGet cache ("rate:" ++ fk ++ "_" ++ tk) = none)
    (hd : fetch_rate env (fc ++ tc) false = none)
    (hr : fetch_rate env (tc ++ fc) true = none)
    (hu1 : fetch_rate env (fc ++ "USDT") false = none)
    (hu2 : fetch_rate env ("USDT" ++ fc) true = none)
    (hwb : fetch_whitebit_rate env (fc ++ "_" ++ tc) false = some r) :
    (get_exchange_rate env cache fk tk amount).result = some (amount * r) ∧
    (get_exchange_rate env cache fk tk amount).info =
      [.num 1, .str fc, .str "=", .num r, .str tc,
       .str "(WhiteBIT", .str "direct)"] ∧
    (get_exchange_rate env cache fk tk amount).write =
      some ⟨"rate:" ++ fk ++ "_" ++ tk, CACHE_TIMEOUT, r⟩ := by
  have hrpos := fetch_whitebit_rate_pos env (fc ++ "_" ++ tc) false r hwb
  have tnone : truthy none = false := rfl
  have tsome : ∀ q : ℚ, truthy (some q) = (q != 0) := fun _ => rfl
  simp only [get_exchange_rate, hlf, hlt, hf, ht, hmiss, hd, hr, hu1, hu2]
  simp [pyOr, tnone, tsome, hne, hwb, hrpos.ne']

/-- Binance answers nothing at all; WhiteBIT quotes EUR_UAH at 45. -/
def envC1w : Env :=
  ⟨fun _ => none, fun p => if p = "EUR_UAH" then some 45 else none⟩

/-- C1 amended, witness: for eur→uah under `envC1w` every hypothesis holds
and the engine returns the WhiteBIT-direct rate 45 on amount 2. -/
theorem C1_fallback_order_witness :
    pyLower "eur" = "eur" ∧ CURRENCIES "eur" = some "EUR" ∧
    cacheGet [] ("rate:" ++ "eur" ++ "_" ++ "uah") = none ∧
    fetch_rate envC1w ("EUR" ++ "UAH") false = none ∧
    fetch_whitebit_rate envC1w ("EUR" ++ "_" ++ "UAH") false = some 45 ∧
    (get_exchange_rate envC1w [] "eur" "uah" 2).result = some (2 * 45) :=
  ⟨by decide!, by decide!, by decide!, by decide!, by decide!,
   (C1_fallback_order envC1w [] "eur" "uah" "EUR" "UAH" 2 45
     (by decide!) (by decide!) (by decide!) (by decide!) (by decide)
     (by decide!) (by decide!) (by decide!) (by decide!) (by decide!)
     (by decide!)).1⟩

/-! ### Claim C7 — identity conversion -/

/-- C7: for a registered symbol `x` whose pair is not yet cached,
`getRate(x, x, amount)` returns the amount at rate 1, caches the identity
rate under the standard TTL, and consults no provider: the whole result is
independent of the provider environment. -/
theorem C7_identity (env env2 : Env) (cache : Cache) (x : String) (amount : ℚ)
    (c : String)
    (hreg : CURRENCIES (pyLower x) = some c)
    (hmiss : cacheGet cache ("rate:" ++ pyLower x ++ "_" ++ pyLower x) = none) :
    (get_exchange_rate env cache x x amount).result = some amount ∧
    (get_exchange_rate env cache x x amount).write =
      some ⟨"rate:" ++ pyLower x ++ "_" ++ pyLower x, CACHE_TIMEOUT, 1⟩ ∧
    get_exchange_rate env cache x x amount = get_exchange_rate env2 cache x x amount := by
  simp only [get_exchange_rate, hreg, hmiss]
  norm_num

/-- A provider environment that knows nothing. -/
def envC7a : Env := ⟨fun _ => none, fun _ => none⟩

/-- A provider environment that answers everything — the identity result
must not see the difference. -/
def envC7b : Env := ⟨fun _ => some 7, fun _ => some 9⟩

/-- C7 witness: identity conversion of 100 btc under an empty cache, with
the two extreme environments giving identical results. -/
theorem C7_identity_witness :
    CURRENCIES (pyLower "btc") = some "BTC" ∧
    cacheGet [] ("rate:" ++ pyLower "btc" ++ "_" ++ pyLower "btc") = none ∧
    (get_exchange_rate envC7a [] "btc" "btc" 100).result = some 100 ∧
    get_exchange_rate envC7a [] "btc" "btc" 100 =
      get_exchange_rate envC7b [] "btc" "btc" 100 :=
  ⟨by decide!, by decide!,
   (C7_identity envC7a envC7b [] "btc" 100 "BTC" (by decide!) (by decide!)).1,
   (C7_identity envC7a envC7b [] "btc" 100 "BTC" (by decide!) (by decide!)).2.2⟩

/-! ### Claim C8 — the §8 end-to-end scenario -/

/-- Binance quotes: USDTBTC at price 0 (invalid), BTCUSDT at 65000. -/
def envC8 : Env :=
  ⟨fun p => if p = "USDTBTC" then some 0
            else if p = "BTCUSDT" then some 65000 else none,
   fun _ => none⟩

/-- User u1 at 4 of 5 requests today. -/
def statsC8 : Stats := ⟨[("u1", ⟨4, "2026-10-12"⟩)], [], 0, []⟩

/-- C8: the direct USDTBTC price 0 is rejected as invalid; the reversed
BTCUSDT quote 65000 is inverted to rate 1/65000 and cached; converting 100
usd→btc yields 100·(1/65000) ≈ 0.00153846; the quota gate had allowed the
request (remaining "1" before it), the recorded count becomes 5, and the
quota check after the request reports remaining "0" and denies. -/
theorem C8_end_to_end :
    fetch_rate envC8 "USDTBTC" false = none ∧
    fetch_rate envC8 "BTCUSDT" true = some (1 / 65000) ∧
    check_limit statsC8 "2026-10-12" "u1" = (true, "1") ∧
    (get_exchange_rate envC8 [] "usd" "btc" 100).result = some (100 * (1 / 65000)) ∧
    (get_exchange_rate envC8 [] "usd" "btc" 100).write =
      some ⟨"rate:usd_btc", CACHE_TIMEOUT, 1 / 65000⟩ ∧
    (get_exchange_rate envC8 [] "usd" "btc" 100).info =
      [.num 1, .str "USDT", .str "=", .num 65000, .str "BTC",
       .str "(Binance", .str "reverse)"] ∧
    |(100 : ℚ) * (1 / 65000) - 153846 / 100000000| < 1 / 100000000 ∧
    (alGet (save_stats statsC8 "2026-10-12" "u1" "usd_to_btc").users "u1").map
      UserData.requests = some 5 ∧
    check_limit (save_stats statsC8 "2026-10-12" "u1" "usd_to_btc")
      "2026-10-12" "u1" = (false, "0") := by
  decide!

/-! ### Claim C9 — alert creation validation -/

/-- C9 counterexample: `/alert usd btc 0` passes the digit-format guard, so
an alert with targetRate 0 (≤ 0) is acknowledged and stored — the claimed
`targetRate > 0` validation does not exist. -/
theorem C9_counterexample :
    ((0 : ℚ) ≤ 0) ∧
    alert ["usd", "btc", "0"] [] = (.ack "usd" "btc" 0, [⟨"usd", "btc", 0⟩]) := by
  decide!

/-- C9 amended: the handler stores an alert iff there are exactly three
arguments, the rate argument is digits with at most one dot (hence its
value is ≥ 0 — zero included, positivity is never checked; negatives are
unrepresentable), and both symbols resolve; a malformed request gets the
usage menu and an unsupported symbol an error, each leaving the stored list
unchanged. -/
theorem C9_alert_validation (args : List String) (a0 a1 a2 : String)
    (alerts : List AlertRec) :
    (args.length ≠ 3 → alert args alerts = (.usageMenu, alerts)) ∧
    (alertArgOk a2 = false → alert [a0, a1, a2] alerts = (.usageMenu, alerts)) ∧
    (alertArgOk a2 = true →
      ((CURRENCIES (pyLower a0)).isNone = true ∨ (CURRENCIES (pyLower a1)).isNone = true) →
      alert [a0, a1, a2] alerts = (.unsupportedCurrency, alerts)) ∧
    (alertArgOk a2 = true →
      (CURRENCIES (pyLower a0)).isSome = true → (CURRENCIES (pyLower a1)).isSome = true →
      alert [a0, a1, a2] alerts =
        (.ack (pyLower a0) (pyLower a1) (pyFloat a2),
         alerts ++ [⟨pyLower a0, pyLower a1, pyFloat a2⟩]) ∧
      0 ≤ pyFloat a2) := by
  refine ⟨?_, ?_, ?_, ?_⟩
  · intro h
    unfold alert
    rw [if_pos (Or.inl h)]
  · intro h
    unfold alert
    rw [if_pos (Or.inr (by simp [h]))]
  · intro h1 h2
    unfold alert
    rw [if_neg (by simp [h1])]
    simp only [List.getD]
    rw [if_pos (by simpa using h2)]
  · intro h1 h2 h3
    obtain ⟨c0, hc0⟩ := Option.isSome_iff_exists.mp h2
    obtain ⟨c1, hc1⟩ := Option.isSome_iff_exists.mp h3
    unfold alert
    rw [if_neg (by simp [h1])]
    simp only [List.getD]
    rw [if_neg (by simp [hc0, hc1])]
    exact ⟨rfl, pyFloat_nonneg a2⟩

/-- C9 amended, witness: `/alert eur uah 2.5` is stored with target 2.5. -/
theorem C9_alert_validation_witness :
    alertArgOk "2.5" = true ∧
    (CURRENCIES (pyLower "eur")).isSome = true ∧
    (CURRENCIES (pyLower "uah")).isSome = true ∧
    (alert ["eur", "uah", "2.5"] [] =
      (.ack (pyLower "eur") (pyLower "uah") (pyFloat "2.5"),
       [] ++ [⟨pyLower "eur", pyLower "uah", pyFloat "2.5"⟩]) ∧
     0 ≤ pyFloat "2.5") :=
  ⟨by decide!, by decide!, by decide!,
   (C9_alert_validation ["eur", "uah", "2.5"] "eur" "uah" "2.5" []).2.2.2
     (by decide!) (by decide!) (by decide!)⟩

/-! ### Claim C10 — positivity of everything the engine caches -/

/-- C10: every `setex` the engine performs stores a strictly positive rate;
and a cache hit on a positive stored rate with a positive amount yields
exactly `amount * rate`, strictly positive. -/
theorem C10_cached_rates_positive (env : Env) (cache : Cache) (f t : String)
    (a r : ℚ) :
    (∀ w : CacheWrite, (get_exchange_rate env cache f t a).write = some w →
      0 < w.rate) ∧
    (0 < a → cacheGet cache ("rate:" ++ pyLower f ++ "_" ++ pyLower t) = some r →
      0 < r →
      (get_exchange_rate env cache f t a).result = some (a * r) ∧ 0 < a * r) := by
  constructor
  · intro w hw
    exact gxr_write_pos env cache f t a w hw
  · intro ha hhit hrp
    constructor
    · simp only [get_exchange_rate, hhit]
    · positivity

/-- C10 witness: the identity write for btc stores rate 1 > 0, and a hit on
a cached rate 41 for usd→uah at amount 2 yields 82 > 0. -/
theorem C10_cached_rates_positive_witness :
    (get_exchange_rate envC7a [] "btc" "btc" 5).write =
      some ⟨"rate:btc_btc", CACHE_TIMEOUT, 1⟩ ∧
    (0 : ℚ) < (CacheWrite.mk "rate:btc_btc" CACHE_TIMEOUT 1).rate ∧
    cacheGet [("rate:usd_uah", 41)] ("rate:" ++ pyLower "usd" ++ "_" ++ pyLower "uah") =
      some 41 ∧
    (get_exchange_rate envC7a [("rate:usd_uah", 41)] "usd" "uah" 2).result =
      some (2 * 41) ∧ (0 : ℚ) < 2 * 41 :=
  ⟨by decide!,
   (C10_cached_rates_positive envC7a [] "btc" "btc" 5 0).1
     ⟨"rate:btc_btc", CACHE_TIMEOUT, 1⟩ (by decide!),
   by decide!,
   (C10_cached_rates_positive envC7a [("rate:usd_uah", 41)] "usd" "uah" 2 41).2
     (by decide!) (by decide!) (by decide!)⟩

end BitBot
